import Mathlib

/-!
Shallow embedding of the Ansible `haproxy` module (src/network/haproxy.py).

The module drives HAProxy's administrative UNIX socket to reconcile one
backend member to a desired state.  The embedding models the `HAProxy`
class at two levels:

* an engine level, where the transport is an oracle `t : String → String`
  mapping each command sent over the socket to the peer's response, and the
  mutable attributes of the Python object (`backend`, `host_attributes`,
  `command_results`) together with the ordered list of commands actually
  sent (`trace`, one entry per `execute` call, i.e. per socket
  connect/send/receive/close cycle) form an explicit state `St`;
* a socket level (`executeSock`), which embeds the body of
  `HAProxy.execute` itself, with explicit failure injection points for
  `connect`, `sendall` and `recv`, tracking whether `close` was reached.

Python exceptions (`TypeError` from subscripting `None`, `IndexError`
from a too-short list, and the Ansible `fail_json` exit) are modelled with
`Except PyFailure`.
-/

deriving instance DecidableEq for Except

namespace HAProxy

/-- Python's single-character `str.split(sep)`: split at every occurrence of
`sep`, keeping empty pieces, with `"".split(sep) == [""]`.  Structurally
recursive so that closed instances reduce inside the kernel. -/
def splitCharAux (sep : Char) : List Char → List Char → List String
  | [], acc => [String.mk acc.reverse]
  | c :: cs, acc =>
    if c = sep then String.mk acc.reverse :: splitCharAux sep cs []
    else splitCharAux sep cs (c :: acc)

/-- Python's `str.split(sep)` for a one-character separator. -/
def splitChar (sep : Char) (s : String) : List String :=
  splitCharAux sep s.data []

/-- Python's whitespace set for `str.strip()`. -/
def isPyWS (c : Char) : Bool :=
  c == ' ' || c == '\t' || c == '\n' || c == '\r'

/-- Python's `str.strip()`: drop whitespace from both ends. -/
def pyStrip (s : String) : String :=
  String.mk (((s.data.dropWhile isPyWS).reverse.dropWhile isPyWS).reverse)

/-- Outcome of `module.exit_json(stdout=self.command_results, changed=changed)`:
the trimmed raw response of the last executed command and the changed flag. -/
structure Outcome where
  stdout : String
  changed : Bool
deriving Repr, DecidableEq

/-- Fatal ends of a run: an uncaught Python `TypeError` (subscripting `None`),
an uncaught `IndexError` (subscripting a too-short list), or the Ansible
`module.fail_json(msg=...)` exit. -/
inductive PyFailure where
  | typeError
  | indexError
  | failJson (msg : String)
deriving Repr, DecidableEq

/-- Module parameters, as read from `self.module.params` in `HAProxy.__init__`,
plus Ansible's check-mode (dry-run) flag `self.module.check_mode`. -/
structure Params where
  state : String
  host : String
  backend : Option String
  weight : Option String
  shutdown_sessions : Bool
  check_mode : Bool
deriving Repr, DecidableEq

/-- Mutable attributes of the `HAProxy` object threaded through a run, plus
`trace`: the commands passed to `execute`, in order (one entry per socket
round trip). -/
structure St where
  backend : Option String
  host_attributes : Option (List String)
  command_results : String
  trace : List String
deriving Repr, DecidableEq

/-- Python's `'%s' % x` renders `None` as the string `"None"`. -/
def optStr : Option String → String
  | some s => s
  | none => "None"

/-- The engine-level view of `HAProxy.execute` (lines 133-150): one socket
round trip sending `cmd`, recording the command in the trace and (since
every engine call site uses the default `log=True`) storing the stripped
response in `command_results`. -/
def execute (t : String → String) (cmd : String) (st : St) : St × String :=
  let result := t cmd
  ({ st with trace := st.trace ++ [cmd], command_results := pyStrip result }, result)

/-- Python's `str.lstrip('# ')`: drop leading characters from the set. -/
def lstripHashSpace (s : String) : String :=
  String.mk (s.data.dropWhile (fun c => c == '#' || c == ' '))

/-- Parsing done by `get_stat_output`: `output.lstrip('# ').strip().split('\n')`. -/
def parseStat (raw : String) : List String :=
  splitChar '\n' (pyStrip (lstripHashSpace raw))

/-- `HAProxy.get_stat_output` (lines 219-221): run `show stat` and split the
response into record lines. -/
def get_stat_output (t : String → String) (st : St) : St × List String :=
  let pr := execute t "show stat" st
  (pr.1, parseStat pr.2)

/-- `HAProxy.get_host_stat_line` (lines 223-228): linear scan of the record
lines; each is comma-split and its field 1 (`svname`) compared with `host`;
the first match is returned.  Falling off the loop returns Python's `None`
(`Except.ok none`); a line with no comma makes `line_parts[1]` raise
`IndexError`. -/
def get_host_stat_line (host : String) : List String → Except PyFailure (Option (List String))
  | [] => Except.ok none
  | line :: rest =>
    let line_parts := splitChar ',' line
    match line_parts[1]? with
    | none => Except.error PyFailure.indexError
    | some svname =>
      if svname = host then Except.ok (some line_parts) else get_host_stat_line host rest

/-- The positional offset table of `get_host_attribute` (lines 230-236);
`attributes.get(name)` yields `None` for an unknown name. -/
def attrIndex : String → Option Nat
  | "pxname" => some 0
  | "status" => some 17
  | "weight" => some 18
  | _ => none

/-- `HAProxy.get_host_attribute` (lines 230-236): subscript
`self.host_attributes` at the named offset.  Subscripting `None` raises
`TypeError`; an offset past the end raises `IndexError`. -/
def get_host_attribute (name : String) (st : St) : Except PyFailure String :=
  match st.host_attributes with
  | none => Except.error PyFailure.typeError
  | some attrs =>
    match attrIndex name with
    | none => Except.error PyFailure.typeError
    | some i =>
      match attrs[i]? with
      | none => Except.error PyFailure.indexError
      | some v => Except.ok v

/-- `HAProxy.is_host_in_maintanence_mode` (lines 210-211). -/
def is_host_in_maintanence_mode (st : St) : Except PyFailure Bool :=
  match get_host_attribute "status" st with
  | Except.error e => Except.error e
  | Except.ok s => Except.ok (s == "MAINT")

/-- `HAProxy.get_backend` (lines 213-214). -/
def get_backend (st : St) : Except PyFailure String :=
  get_host_attribute "pxname" st

/-- `HAProxy.get_current_weight` (lines 216-217). -/
def get_current_weight (st : St) : Except PyFailure String :=
  get_host_attribute "weight" st

/-- The pure decision core of `is_weight_changed` (lines 238-248), as a
function of the requested weight and the current weight string: `None`
means no change; the two literal equivalences `"100%"`/`"1"` and
`"0%"`/`"0"` mean no change; otherwise the strings are compared for
inequality. -/
def weightChangeCore (weight : Option String) (current_weight : String) : Bool :=
  match weight with
  | none => false
  | some w =>
    if w = "100%" ∧ current_weight = "1" then false
    else if w = "0%" ∧ current_weight = "0" then false
    else w != current_weight

/-- `HAProxy.is_weight_changed` (lines 238-248): the `None` short-circuit
happens before `get_current_weight()` is called, so a missing member record
only matters when a weight was requested. -/
def is_weight_changed (weight : Option String) (st : St) : Except PyFailure Bool :=
  match weight with
  | none => Except.ok false
  | some _ =>
    match get_current_weight st with
    | Except.error e => Except.error e
    | Except.ok current_weight => Except.ok (weightChangeCore weight current_weight)

/-- Shape of the command string built by `enabled` (lines 161-178): the
`get weight` query, then `set weight` exactly when the weight changed, then
`enable server` exactly when the member was in maintenance. -/
def enabledCmdStr (pxname svname : String) (weight : Option String) (wc maint : Bool) : String :=
  "get weight " ++ pxname ++ "/" ++ svname
    ++ (if wc then "; set weight " ++ pxname ++ "/" ++ svname ++ " " ++ optStr weight else "")
    ++ (if maint then "; enable server " ++ pxname ++ "/" ++ svname else "")

/-- Shape of the mutating command string built by `disabled` (lines 192-205):
the query, `disable server`, then `shutdown sessions server` exactly when
the flag is set. -/
def disabledCmdStr (pxname svname : String) (shutdown_sessions : Bool) : String :=
  "get weight " ++ pxname ++ "/" ++ svname
    ++ ("; disable server " ++ pxname ++ "/" ++ svname)
    ++ (if shutdown_sessions then "; shutdown sessions server " ++ pxname ++ "/" ++ svname else "")

/-- `HAProxy.enabled` (lines 152-181). -/
def enabled (p : Params) (t : String → String) (st : St) : St × Except PyFailure Bool :=
  let svname := p.host
  let pxname := optStr st.backend
  let cmd := "get weight " ++ pxname ++ "/" ++ svname
  match is_weight_changed p.weight st with
  | Except.error e => (st, Except.error e)
  | Except.ok weight_changed =>
    match is_host_in_maintanence_mode st with
    | Except.error e => (st, Except.error e)
    | Except.ok status_changed =>
      if weight_changed = false ∧ status_changed = false then
        ((execute t cmd st).1, Except.ok false)
      else if p.check_mode then
        ((execute t cmd st).1, Except.ok true)
      else
        let cmd := cmd ++ (if weight_changed then
          "; set weight " ++ pxname ++ "/" ++ svname ++ " " ++ optStr p.weight else "")
        let cmd := cmd ++ (if status_changed then
          "; enable server " ++ pxname ++ "/" ++ svname else "")
        ((execute t cmd st).1, Except.ok true)

/-- `HAProxy.disabled` (lines 183-208). -/
def disabled (p : Params) (t : String → String) (st : St) : St × Except PyFailure Bool :=
  let svname := p.host
  let pxname := optStr st.backend
  let cmd := "get weight " ++ pxname ++ "/" ++ svname
  match is_host_in_maintanence_mode st with
  | Except.error e => (st, Except.error e)
  | Except.ok inMaint =>
    if inMaint then
      ((execute t cmd st).1, Except.ok false)
    else if p.check_mode then
      ((execute t cmd st).1, Except.ok true)
    else
      let cmd := cmd ++ ("; disable server " ++ pxname ++ "/" ++ svname)
      let cmd := cmd ++ (if p.shutdown_sessions then
        "; shutdown sessions server " ++ pxname ++ "/" ++ svname else "")
      ((execute t cmd st).1, Except.ok true)

/-- `HAProxy.act` (lines 250-271): fetch the snapshot, locate the member
record (the Python assignment stores `None` when the scan found nothing),
auto-detect the backend when unset, branch on the state, and end in
`exit_json` (`Except.ok`) or `fail_json` (`Except.error (failJson ...)`).
Initial attributes per `__init__`: `command_results = []` (rendered here as
the empty string) and `host_attributes = []` (never subscripted before the
assignment in `act`, so its initial value is irrelevant; `none` is used). -/
def act (p : Params) (t : String → String) : St × Except PyFailure Outcome :=
  let st0 : St := ⟨p.backend, none, "", []⟩
  let pr := get_stat_output t st0
  let st1 := pr.1
  match get_host_stat_line p.host pr.2 with
  | Except.error e => (st1, Except.error e)
  | Except.ok attrs =>
    let st2 := { st1 with host_attributes := attrs }
    let bres : Except PyFailure (Option String) :=
      match st2.backend with
      | none =>
        match get_backend st2 with
        | Except.error e => Except.error e
        | Except.ok b => Except.ok (some b)
      | some b => Except.ok (some b)
    match bres with
    | Except.error e => (st2, Except.error e)
    | Except.ok b =>
      let st3 := { st2 with backend := b }
      if p.state = "enabled" then
        match enabled p t st3 with
        | (st4, Except.error e) => (st4, Except.error e)
        | (st4, Except.ok changed) => (st4, Except.ok ⟨st4.command_results, changed⟩)
      else if p.state = "disabled" then
        match disabled p t st3 with
        | (st4, Except.error e) => (st4, Except.error e)
        | (st4, Except.ok changed) => (st4, Except.ok ⟨st4.command_results, changed⟩)
      else
        (st3, Except.error (PyFailure.failJson ("unknown state specified: '" ++ p.state ++ "'")))

/-- The `choices` list of the `state` argument in `main` (line 102 and 277). -/
def ACTION_CHOICES : List String := ["enabled", "disabled"]

/-- Modelled from the spec: the front end's argument validation
(`AnsibleModule(argument_spec=dict(state=dict(..., choices=ACTION_CHOICES), ...))`
in `main`, whose enforcement lives in `ansible.module_utils.basic`, outside
this repository) accepts a desired-state value exactly when it is one of the
declared choices, rejecting anything else before any socket activity. -/
def validate_state (state : String) : Bool :=
  ACTION_CHOICES.contains state

/-! Socket-level model of `HAProxy.execute` (lines 133-150).  The body runs
`socket(...)`, `connect`, `sendall`, a `recv` loop, `self.command_results = ...`,
`close`, `return` in that order; any of `connect`, `sendall`, `recv` may raise,
and an exception propagates immediately.  `SockEnv` injects the behaviour of
those three primitives; the model records whether the line `self.client.close()`
was reached before the function exited. -/

/-- Behaviour of the socket primitives in one exchange: whether `connect` and
`sendall` succeed, and the successive values returned by `recv` (an
`Except.error` entry is a raised I/O error; an exhausted list means the peer
closed the stream, i.e. further `recv` returns the empty string). -/
structure SockEnv where
  connect_ok : Bool
  send_ok : Bool
  recv_results : List (Except Unit String)
deriving Repr, DecidableEq

/-- The `recv` loop of `execute` (lines 143-146): accumulate chunks until a
falsy (empty) chunk, propagating a raised error. -/
def recvAll : List (Except Unit String) → String → Except Unit String
  | [], acc => Except.ok acc
  | Except.error e :: _, _ => Except.error e
  | Except.ok buf :: rest, acc =>
    if buf = "" then Except.ok acc else recvAll rest (acc ++ buf)

/-- What one call of `execute` did at the socket level: whether
`self.client.close()` was reached, what was written to the socket, and the
returned result or the propagated exception. -/
structure SockResult where
  closed : Bool
  sent : List String
  result : Except Unit String
deriving Repr, DecidableEq

/-- The body of `HAProxy.execute` (lines 133-150) at the socket level.  The
`close()` call on line 149 is reached only after the `recv` loop finishes
normally; an exception in `connect`, `sendall` or `recv` exits the function
with the socket still open. -/
def executeSock (env : SockEnv) (cmd : String) : SockResult :=
  if env.connect_ok = false then ⟨false, [], Except.error ()⟩
  else if env.send_ok = false then ⟨false, [], Except.error ()⟩
  else
    match recvAll env.recv_results "" with
    | Except.error e => ⟨false, [cmd ++ "\n"], Except.error e⟩
    | Except.ok result => ⟨true, [cmd ++ "\n"], Except.ok result⟩

/-! Spec-modelled environment transition for the idempotency claim.  What the
load balancer does with the issued commands is not code of this repository;
the two definitions below follow the spec's words. -/

/-- Whether a weight expression uses the percentage form (ends in `'%'`). -/
def endsPercent (s : String) : Bool :=
  s.data.getLast? == some '%'

/-- Decimal digit-string parser used by the spec-modelled transition. -/
def parseDigitsAux : List Char → Nat → Option Nat
  | [], acc => some acc
  | c :: cs, acc =>
    if c.isDigit then parseDigitsAux cs (acc * 10 + (c.toNat - 48)) else none

/-- Modelled from the spec: HAProxy's reaction to `set weight <pool>/<host> <arg>`
is outside this repository.  Per the spec, a percentage argument is relative
to the initially configured weight (baseline weight reported as the integer
string "1" when at 100%), and the statistics dump afterwards reports the
resulting effective weight as an integer string; an absolute argument is
reported back as the weight that was set. -/
def applySetWeight (initial : Nat) (arg : String) : String :=
  if endsPercent arg then
    match parseDigitsAux arg.data.dropLast 0 with
    | some pct => toString (initial * pct / 100)
    | none => arg
  else arg

/-- Modelled from the spec: the member's (status, weight) pair after a live
`enabled` run, with no external drift.  The first run issues `enable server`
exactly when the member was in maintenance (making it UP afterwards) and
`set weight` exactly when the weight policy demanded a change (after which
the dump reports the applied weight per `applySetWeight`). -/
def memberAfterEnabled (p : Params) (initial : Nat) (status curw : String) :
    String × String :=
  let wc := weightChangeCore p.weight curw
  let status2 := if status = "MAINT" then "UP" else status
  let curw2 :=
    if wc then
      match p.weight with
      | some w => applySetWeight initial w
      | none => curw
    else curw
  (status2, curw2)

/-! Master lemmas characterizing each engine function under the hypotheses
that the member record was found and carries a status and weight field. -/

theorem is_weight_changed_ok (w : Option String) (st : St) (attrs : List String) (curw : String)
    (hA : st.host_attributes = some attrs) (hW : attrs[18]? = some curw) :
    is_weight_changed w st = Except.ok (weightChangeCore w curw) := by
  cases w with
  | none => rfl
  | some w =>
    simp [is_weight_changed, get_current_weight, get_host_attribute, attrIndex, hA, hW]

theorem maint_ok (st : St) (attrs : List String) (status : String)
    (hA : st.host_attributes = some attrs) (hS : attrs[17]? = some status) :
    is_host_in_maintanence_mode st = Except.ok (status == "MAINT") := by
  simp [is_host_in_maintanence_mode, get_host_attribute, attrIndex, hA, hS]

theorem enabled_eq (p : Params) (t : String → String) (st : St) (attrs : List String)
    (status curw : String)
    (hA : st.host_attributes = some attrs)
    (hS : attrs[17]? = some status)
    (hW : attrs[18]? = some curw)
    (hcm : p.check_mode = false) :
    enabled p t st =
      ((execute t (enabledCmdStr (optStr st.backend) p.host p.weight
          (weightChangeCore p.weight curw) (status == "MAINT")) st).1,
       Except.ok (weightChangeCore p.weight curw || (status == "MAINT"))) := by
  have hw := is_weight_changed_ok p.weight st attrs curw hA hW
  have hm := maint_ok st attrs status hA hS
  cases hwc : weightChangeCore p.weight curw <;> cases hmm : (status == "MAINT") <;>
    simp [enabled, hw, hm, hwc, hmm, hcm, enabledCmdStr]

theorem enabled_check_eq (p : Params) (t : String → String) (st : St) (attrs : List String)
    (status curw : String)
    (hA : st.host_attributes = some attrs)
    (hS : attrs[17]? = some status)
    (hW : attrs[18]? = some curw)
    (hcm : p.check_mode = true) :
    enabled p t st =
      ((execute t ("get weight " ++ optStr st.backend ++ "/" ++ p.host) st).1,
       Except.ok (weightChangeCore p.weight curw || (status == "MAINT"))) := by
  have hw := is_weight_changed_ok p.weight st attrs curw hA hW
  have hm := maint_ok st attrs status hA hS
  cases hwc : weightChangeCore p.weight curw <;> cases hmm : (status == "MAINT") <;>
    simp [enabled, hw, hm, hwc, hmm, hcm]

theorem disabled_eq (p : Params) (t : String → String) (st : St) (attrs : List String)
    (status : String)
    (hA : st.host_attributes = some attrs)
    (hS : attrs[17]? = some status)
    (hcm : p.check_mode = false) :
    disabled p t st =
      (if (status == "MAINT") then
        ((execute t ("get weight " ++ optStr st.backend ++ "/" ++ p.host) st).1, Except.ok false)
      else
        ((execute t (disabledCmdStr (optStr st.backend) p.host p.shutdown_sessions) st).1,
         Except.ok true)) := by
  have hm := maint_ok st attrs status hA hS
  cases hmm : (status == "MAINT") <;>
    simp [disabled, hm, hmm, hcm, disabledCmdStr]

theorem disabled_check_eq (p : Params) (t : String → String) (st : St) (attrs : List String)
    (status : String)
    (hA : st.host_attributes = some attrs)
    (hS : attrs[17]? = some status)
    (hcm : p.check_mode = true) :
    disabled p t st =
      ((execute t ("get weight " ++ optStr st.backend ++ "/" ++ p.host) st).1,
       Except.ok (!(status == "MAINT"))) := by
  have hm := maint_ok st attrs status hA hS
  cases hmm : (status == "MAINT") <;>
    simp [disabled, hm, hmm, hcm]

theorem act_enabled_eq (p : Params) (t : String → String) (m : List String)
    (status curw bk : String)
    (hstate : p.state = "enabled")
    (hfind : get_host_stat_line p.host (parseStat (t "show stat")) = Except.ok (some m))
    (hbk : (match p.backend with | none => m[0]? | some b => some b) = some bk)
    (hS : m[17]? = some status)
    (hW : m[18]? = some curw)
    (hcm : p.check_mode = false) :
    act p t =
      ({ backend := some bk, host_attributes := some m,
         command_results := pyStrip (t (enabledCmdStr bk p.host p.weight
           (weightChangeCore p.weight curw) (status == "MAINT"))),
         trace := ["show stat", enabledCmdStr bk p.host p.weight
           (weightChangeCore p.weight curw) (status == "MAINT")] },
       Except.ok ⟨pyStrip (t (enabledCmdStr bk p.host p.weight
           (weightChangeCore p.weight curw) (status == "MAINT"))),
         weightChangeCore p.weight curw || (status == "MAINT")⟩) := by
  have hen := enabled_eq p t
    ({ backend := some bk, host_attributes := some m,
       command_results := pyStrip (t "show stat"), trace := ["show stat"] })
    m status curw rfl hS hW hcm
  cases hpb : p.backend with
  | none =>
    rw [hpb] at hbk
    have hbk2 : m[0]? = some bk := hbk
    simp only [act, get_stat_output, execute]
    rw [hfind]
    simp [get_backend, get_host_attribute, attrIndex, hbk2, hpb, hstate, hen, execute, optStr]
  | some b =>
    rw [hpb] at hbk
    have hb2 : b = bk := by injection hbk
    subst hb2
    simp only [act, get_stat_output, execute]
    rw [hfind]
    simp [hpb, hstate, hen, execute, optStr]

theorem act_enabled_check_eq (p : Params) (t : String → String) (m : List String)
    (status curw bk : String)
    (hstate : p.state = "enabled")
    (hfind : get_host_stat_line p.host (parseStat (t "show stat")) = Except.ok (some m))
    (hbk : (match p.backend with | none => m[0]? | some b => some b) = some bk)
    (hS : m[17]? = some status)
    (hW : m[18]? = some curw)
    (hcm : p.check_mode = true) :
    act p t =
      ({ backend := some bk, host_attributes := some m,
         command_results := pyStrip (t ("get weight " ++ bk ++ "/" ++ p.host)),
         trace := ["show stat", "get weight " ++ bk ++ "/" ++ p.host] },
       Except.ok ⟨pyStrip (t ("get weight " ++ bk ++ "/" ++ p.host)),
         weightChangeCore p.weight curw || (status == "MAINT")⟩) := by
  have hen := enabled_check_eq p t
    ({ backend := some bk, host_attributes := some m,
       command_results := pyStrip (t "show stat"), trace := ["show stat"] })
    m status curw rfl hS hW hcm
  cases hpb : p.backend with
  | none =>
    rw [hpb] at hbk
    have hbk2 : m[0]? = some bk := hbk
    simp only [act, get_stat_output, execute]
    rw [hfind]
    simp [get_backend, get_host_attribute, attrIndex, hbk2, hpb, hstate, hen, execute, optStr]
  | some b =>
    rw [hpb] at hbk
    have hb2 : b = bk := by injection hbk
    subst hb2
    simp only [act, get_stat_output, execute]
    rw [hfind]
    simp [hpb, hstate, hen, execute, optStr]

theorem act_disabled_eq (p : Params) (t : String → String) (m : List String)
    (status bk : String)
    (hstate : p.state = "disabled")
    (hfind : get_host_stat_line p.host (parseStat (t "show stat")) = Except.ok (some m))
    (hbk : (match p.backend with | none => m[0]? | some b => some b) = some bk)
    (hS : m[17]? = some status)
    (hcm : p.check_mode = false) :
    act p t =
      (if (status == "MAINT") then
        ({ backend := some bk, host_attributes := some m,
           command_results := pyStrip (t ("get weight " ++ bk ++ "/" ++ p.host)),
           trace := ["show stat", "get weight " ++ bk ++ "/" ++ p.host] },
         Except.ok ⟨pyStrip (t ("get weight " ++ bk ++ "/" ++ p.host)), false⟩)
      else
        ({ backend := some bk, host_attributes := some m,
           command_results := pyStrip (t (disabledCmdStr bk p.host p.shutdown_sessions)),
           trace := ["show stat", disabledCmdStr bk p.host p.shutdown_sessions] },
         Except.ok ⟨pyStrip (t (disabledCmdStr bk p.host p.shutdown_sessions)), true⟩)) := by
  have hdis := disabled_eq p t
    ({ backend := some bk, host_attributes := some m,
       command_results := pyStrip (t "show stat"), trace := ["show stat"] })
    m status rfl hS hcm
  have hne : ¬ ("disabled" = "enabled") := by decide
  cases hpb : p.backend with
  | none =>
    rw [hpb] at hbk
    have hbk2 : m[0]? = some bk := hbk
    cases hmm : (status == "MAINT") <;>
    · rw [hmm] at hdis
      simp only [act, get_stat_output, execute]
      rw [hfind]
      simp [get_backend, get_host_attribute, attrIndex, hbk2, hpb, hstate, hne, hdis, hmm,
        execute, optStr]
  | some b =>
    rw [hpb] at hbk
    have hb2 : b = bk := by injection hbk
    subst hb2
    cases hmm : (status == "MAINT") <;>
    · rw [hmm] at hdis
      simp only [act, get_stat_output, execute]
      rw [hfind]
      simp [hpb, hstate, hne, hdis, hmm, execute, optStr]

theorem act_disabled_check_eq (p : Params) (t : String → String) (m : List String)
    (status bk : String)
    (hstate : p.state = "disabled")
    (hfind : get_host_stat_line p.host (parseStat (t "show stat")) = Except.ok (some m))
    (hbk : (match p.backend with | none => m[0]? | some b => some b) = some bk)
    (hS : m[17]? = some status)
    (hcm : p.check_mode = true) :
    act p t =
      ({ backend := some bk, host_attributes := some m,
         command_results := pyStrip (t ("get weight " ++ bk ++ "/" ++ p.host)),
         trace := ["show stat", "get weight " ++ bk ++ "/" ++ p.host] },
       Except.ok ⟨pyStrip (t ("get weight " ++ bk ++ "/" ++ p.host)),
         !(status == "MAINT")⟩) := by
  have hdis := disabled_check_eq p t
    ({ backend := some bk, host_attributes := some m,
       command_results := pyStrip (t "show stat"), trace := ["show stat"] })
    m status rfl hS hcm
  have hne : ¬ ("disabled" = "enabled") := by decide
  cases hpb : p.backend with
  | none =>
    rw [hpb] at hbk
    have hbk2 : m[0]? = some bk := hbk
    simp only [act, get_stat_output, execute]
    rw [hfind]
    simp [get_backend, get_host_attribute, attrIndex, hbk2, hpb, hstate, hne, hdis, execute, optStr]
  | some b =>
    rw [hpb] at hbk
    have hb2 : b = bk := by injection hbk
    subst hb2
    simp only [act, get_stat_output, execute]
    rw [hfind]
    simp [hpb, hstate, hne, hdis, execute, optStr]

theorem act_unknown_eq (p : Params) (t : String → String) (m : List String) (bk : String)
    (h1 : p.state ≠ "enabled") (h2 : p.state ≠ "disabled")
    (hfind : get_host_stat_line p.host (parseStat (t "show stat")) = Except.ok (some m))
    (hbk : (match p.backend with | none => m[0]? | some b => some b) = some bk) :
    act p t =
      ({ backend := some bk, host_attributes := some m,
         command_results := pyStrip (t "show stat"), trace := ["show stat"] },
       Except.error (PyFailure.failJson ("unknown state specified: '" ++ p.state ++ "'"))) := by
  cases hpb : p.backend with
  | none =>
    rw [hpb] at hbk
    have hbk2 : m[0]? = some bk := hbk
    simp only [act, get_stat_output, execute]
    rw [hfind]
    simp [get_backend, get_host_attribute, attrIndex, hbk2, hpb, h1, h2, execute, optStr]
  | some b =>
    rw [hpb] at hbk
    have hb2 : b = bk := by injection hbk
    subst hb2
    simp only [act, get_stat_output, execute]
    rw [hfind]
    simp [hpb, h1, h2, execute, optStr]

theorem get_host_stat_line_eq_find (host : String) (lines : List String)
    (h : ∀ l ∈ lines, 2 ≤ (splitChar ',' l).length) :
    get_host_stat_line host lines =
      Except.ok ((lines.map (fun l => splitChar ',' l)).find?
        (fun ps => ps[1]? == some host)) := by
  induction lines with
  | nil => rfl
  | cons l rest ih =>
    have hl : 2 ≤ (splitChar ',' l).length := h l (by simp)
    have hrest : ∀ x ∈ rest, 2 ≤ (splitChar ',' x).length := fun x hx => h x (by simp [hx])
    obtain ⟨v, hv⟩ : ∃ v, (splitChar ',' l)[1]? = some v :=
      ⟨_, List.getElem?_eq_getElem hl⟩
    by_cases hveq : v = host
    · subst hveq
      simp [get_host_stat_line, hv, List.find?_cons]
    · simp [get_host_stat_line, hv, hveq, List.find?_cons, ih hrest]

/-! Claim theorems. -/

/-- C1: the weight-change policy (`is_weight_changed`, here its pure core
`weightChangeCore`) returns false when no weight is requested, false when the
requested weight string equals the current weight string, false for the two
literal equivalences (requested "100%" with current "1", and requested "0%"
with current "0"), and true in every other case; in particular
`isChangeNeeded("50", "50")` is false and `isChangeNeeded("50", "1")` is true. -/
theorem haproxy_C1 (w current : String) :
    weightChangeCore none current = false ∧
    (w = current → weightChangeCore (some w) current = false) ∧
    weightChangeCore (some "100%") "1" = false ∧
    weightChangeCore (some "0%") "0" = false ∧
    (w ≠ current → ¬(w = "100%" ∧ current = "1") → ¬(w = "0%" ∧ current = "0") →
      weightChangeCore (some w) current = true) ∧
    weightChangeCore (some "50") "50" = false ∧
    weightChangeCore (some "50") "1" = true := by
  refine ⟨rfl, ?_, by decide, by decide, ?_, by decide, by decide⟩
  · rintro rfl
    simp only [weightChangeCore]
    split
    · rfl
    · split
      · rfl
      · exact bne_self_eq_false w
  · intro h1 h2 h3
    simp only [weightChangeCore]
    rw [if_neg h2, if_neg h3]
    exact bne_iff_ne.mpr h1

/-- Witness for C1 at the two concrete inputs named by the claim. -/
theorem haproxy_C1_witness :
    weightChangeCore (some "50") "50" = false ∧ weightChangeCore (some "50") "1" = true :=
  ⟨(haproxy_C1 "50" "50").2.1 rfl,
   (haproxy_C1 "50" "1").2.2.2.2.1 (by decide) (by decide) (by decide)⟩

/-- Statistics dump used in Scenario A: member `app` of pool `www`, in
maintenance with weight "1". -/
def dumpA : String := "# pxname,svname\nwww,app,,,,,,,,,,,,,,,,MAINT,1\n"

def tA : String → String := fun c => if c = "show stat" then dumpA else "ok\n"

def pA : Params := ⟨"enabled", "app", some "www", some "100%", false, false⟩

def mA : List String := ["www", "app"] ++ List.replicate 15 "" ++ ["MAINT", "1"]

/-- C2: for every live (non-check-mode) request with desired state `enabled`
whose member record is found with a status and weight field: if no weight
change is needed and the member is not in maintenance, the engine executes
only the non-mutating "get weight" query after the snapshot and reports
changed=false; otherwise it builds one composite command beginning with the
weight query, appending "set weight" exactly when a weight change is needed
and "enable server" exactly when the member is in maintenance, in that fixed
order (the shape `enabledCmdStr`), executes it as a single exchange (one
further trace entry), and reports changed=true. -/
theorem haproxy_C2 (p : Params) (t : String → String) (m : List String)
    (status curw bk : String)
    (hstate : p.state = "enabled")
    (hfind : get_host_stat_line p.host (parseStat (t "show stat")) = Except.ok (some m))
    (hbk : (match p.backend with | none => m[0]? | some b => some b) = some bk)
    (hS : m[17]? = some status)
    (hW : m[18]? = some curw)
    (hcm : p.check_mode = false) :
    (weightChangeCore p.weight curw = false ∧ (status == "MAINT") = false →
      (act p t).1.trace = ["show stat", "get weight " ++ bk ++ "/" ++ p.host] ∧
      (act p t).2 = Except.ok ⟨pyStrip (t ("get weight " ++ bk ++ "/" ++ p.host)), false⟩) ∧
    (¬(weightChangeCore p.weight curw = false ∧ (status == "MAINT") = false) →
      (act p t).1.trace = ["show stat",
        enabledCmdStr bk p.host p.weight (weightChangeCore p.weight curw) (status == "MAINT")] ∧
      (act p t).2 = Except.ok ⟨pyStrip (t (enabledCmdStr bk p.host p.weight
        (weightChangeCore p.weight curw) (status == "MAINT"))), true⟩) := by
  have h := act_enabled_eq p t m status curw bk hstate hfind hbk hS hW hcm
  constructor
  · rintro ⟨h1, h2⟩
    rw [h]
    simp [enabledCmdStr, h1, h2]
  · intro hn
    have hor : (weightChangeCore p.weight curw || (status == "MAINT")) = true := by
      cases hwc : weightChangeCore p.weight curw <;> cases hmm : (status == "MAINT") <;>
        simp_all
    rw [h]
    simp [hor]

/-- Witness for C2 at Scenario A: status MAINT, current weight "1", requested
weight "100%" gives the composite exactly `get weight www/app; enable server
www/app` and changed=true. -/
theorem haproxy_C2_witness :
    ¬(weightChangeCore (some "100%") "1" = false ∧ (("MAINT" : String) == "MAINT") = false) ∧
    (act pA tA).1.trace = ["show stat", "get weight www/app; enable server www/app"] ∧
    (act pA tA).2 = Except.ok ⟨"ok", true⟩ := by
  have h := (haproxy_C2 pA tA mA "MAINT" "1" "www" rfl rfl rfl rfl rfl rfl).2 (by decide)
  exact ⟨by decide, h.1, h.2⟩

/-- Statistics dump used in Scenario C: member `app` of pool `www`, active
(not in maintenance) with weight "1". -/
def dumpC : String := "# pxname,svname\nwww,app,,,,,,,,,,,,,,,,UP,1\n"

def tC : String → String := fun c => if c = "show stat" then dumpC else "ok\n"

def pC : Params := ⟨"disabled", "app", some "www", none, true, false⟩

def mC : List String := ["www", "app"] ++ List.replicate 15 "" ++ ["UP", "1"]

/-- C3: for every live request with desired state `disabled` whose member
record is found with a status field: if the member is already in maintenance
the engine executes only the "get weight" query after the snapshot and
reports changed=false; otherwise it builds and executes in one exchange the
composite consisting of the query, then "disable server", then "shutdown
sessions server" exactly when the session-shutdown flag is set (the shape
`disabledCmdStr`), and reports changed=true. -/
theorem haproxy_C3 (p : Params) (t : String → String) (m : List String)
    (status bk : String)
    (hstate : p.state = "disabled")
    (hfind : get_host_stat_line p.host (parseStat (t "show stat")) = Except.ok (some m))
    (hbk : (match p.backend with | none => m[0]? | some b => some b) = some bk)
    (hS : m[17]? = some status)
    (hcm : p.check_mode = false) :
    ((status == "MAINT") = true →
      (act p t).1.trace = ["show stat", "get weight " ++ bk ++ "/" ++ p.host] ∧
      (act p t).2 = Except.ok ⟨pyStrip (t ("get weight " ++ bk ++ "/" ++ p.host)), false⟩) ∧
    ((status == "MAINT") = false →
      (act p t).1.trace = ["show stat", disabledCmdStr bk p.host p.shutdown_sessions] ∧
      (act p t).2 = Except.ok ⟨pyStrip (t (disabledCmdStr bk p.host p.shutdown_sessions)),
        true⟩) := by
  have h := act_disabled_eq p t m status bk hstate hfind hbk hS hcm
  constructor <;> intro hmm <;> rw [h] <;> simp [hmm]

/-- Witness for C3 at Scenario C: active member, `disabled` with
shutdown_sessions=true gives the composite exactly `get weight www/app;
disable server www/app; shutdown sessions server www/app` and changed=true. -/
theorem haproxy_C3_witness :
    (("UP" : String) == "MAINT") = false ∧
    (act pC tC).1.trace =
      ["show stat",
       "get weight www/app; disable server www/app; shutdown sessions server www/app"] ∧
    (act pC tC).2 = Except.ok ⟨"ok", true⟩ := by
  have h := (haproxy_C3 pC tC mC "UP" "www" rfl rfl rfl rfl rfl).2 (by decide)
  exact ⟨by decide, h.1, h.2⟩

/-- Statistics dump whose only member record is for `other`: the requested
host `missing` appears nowhere. -/
def dumpD : String := "# pxname,svname\nwww,other,,,,,,,,,,,,,,,,UP,1\n"

def tD : String → String := fun c => if c = "show stat" then dumpD else "resp\n"

def pD : Params := ⟨"enabled", "missing", none, none, false, false⟩

/-- C4: evaluation of the code at the failing input of the claim.  When the
target host is absent from the statistics dump, `get_host_stat_line` returns
Python's `None`, which `act` stores into `host_attributes`; the next
attribute access subscripts `None` and the run dies with an uncaught
`TypeError` — a fatal crash, but not the "member record missing" report the
claim describes (the code never produces such a report).  The parts of the
claim that do hold are also recorded: no transport write happens beyond the
initial statistics query (the trace is exactly `["show stat"]`) and the
engine never proceeds with empty member fields. -/
theorem haproxy_C4 :
    (act pD tD).2 = Except.error PyFailure.typeError ∧
    (act pD tD).1.trace = ["show stat"] ∧
    (act pD tD).1.host_attributes = none := by
  exact ⟨rfl, rfl, rfl⟩

def dump5 : String := "# pxname,svname\nwww,app,,,,,,,,,,,,,,,,MAINT,1\n"

def t5 : String → String := fun c => if c = "show stat" then dump5 else "done\n"

def p5 : Params := ⟨"enabled", "app", some "www", some "100%", false, false⟩

def m5 : List String := ["www", "app"] ++ List.replicate 15 "" ++ ["MAINT", "1"]

/-- C5: for every request (either desired state) whose member record is
found, running with the dry-run flag set sends only the statistics query and
the non-mutating "get weight" query to the transport (no mutating command),
while the reported `changed` boolean equals what the identical request
reports in a live run. -/
theorem haproxy_C5 (p : Params) (t : String → String) (m : List String)
    (status curw bk : String)
    (hstate : p.state = "enabled" ∨ p.state = "disabled")
    (hfind : get_host_stat_line p.host (parseStat (t "show stat")) = Except.ok (some m))
    (hbk : (match p.backend with | none => m[0]? | some b => some b) = some bk)
    (hS : m[17]? = some status)
    (hW : m[18]? = some curw) :
    (act { p with check_mode := true } t).1.trace =
      ["show stat", "get weight " ++ bk ++ "/" ++ p.host] ∧
    ((act { p with check_mode := true } t).2.map (fun o => o.changed)) =
      ((act { p with check_mode := false } t).2.map (fun o => o.changed)) := by
  rcases hstate with he | hd
  · have hc := act_enabled_check_eq { p with check_mode := true } t m status curw bk
      he hfind hbk hS hW rfl
    have hl := act_enabled_eq { p with check_mode := false } t m status curw bk
      he hfind hbk hS hW rfl
    rw [hc, hl]
    simp [Except.map]
  · have hc := act_disabled_check_eq { p with check_mode := true } t m status bk
      hd hfind hbk hS rfl
    have hl := act_disabled_eq { p with check_mode := false } t m status bk
      hd hfind hbk hS rfl
    rw [hc, hl]
    cases hmm : (status == "MAINT") <;> simp [hmm, Except.map]

/-- Witness for C5: a dry-run request that would mutate (member in
maintenance) sends only the two queries, and its changed report agrees with
the live run's. -/
theorem haproxy_C5_witness :
    (act { p5 with check_mode := true } t5).1.trace = ["show stat", "get weight www/app"] ∧
    ((act { p5 with check_mode := true } t5).2.map (fun o => o.changed)) =
      ((act { p5 with check_mode := false } t5).2.map (fun o => o.changed)) :=
  haproxy_C5 p5 t5 m5 "MAINT" "1" "www" (Or.inl rfl) rfl rfl rfl rfl

/-- C6 as amended: a second live `enabled` run against the member state
produced by the first (per the spec-modelled transition `memberAfterEnabled`,
with no drift) reports changed=false, provided the requested weight is
absent or a non-percentage (absolute) expression.  The restriction is forced
by `haproxy_C6_counterexample`: a percentage request other than the two
literal equivalences keeps reporting changed=true. -/
theorem haproxy_C6_amended (p : Params) (t2 : String → String) (st2 : St)
    (attrs2 : List String) (status curw : String) (initial : Nat)
    (habs : ∀ w, p.weight = some w → endsPercent w = false)
    (hA2 : st2.host_attributes = some attrs2)
    (hS2 : attrs2[17]? = some (memberAfterEnabled p initial status curw).1)
    (hW2 : attrs2[18]? = some (memberAfterEnabled p initial status curw).2) :
    (enabled p t2 st2).2 = Except.ok false := by
  have hwc2 : weightChangeCore p.weight (memberAfterEnabled p initial status curw).2 = false := by
    cases hw : p.weight with
    | none => rfl
    | some w =>
      have hpct := habs w hw
      by_cases hwc : weightChangeCore (some w) curw = true
      · have hpost : (memberAfterEnabled p initial status curw).2 = w := by
          simp [memberAfterEnabled, hw, hwc, applySetWeight, hpct]
        rw [hpost]
        simp only [weightChangeCore]
        split
        · rfl
        · split
          · rfl
          · exact bne_self_eq_false w
      · have hwcf : weightChangeCore (some w) curw = false := by
          cases h2 : weightChangeCore (some w) curw
          · rfl
          · exact absurd h2 hwc
        have hpost : (memberAfterEnabled p initial status curw).2 = curw := by
          simp [memberAfterEnabled, hw, hwcf]
        rw [hpost]
        exact hwcf
  have hm2 : ((memberAfterEnabled p initial status curw).1 == "MAINT") = false := by
    by_cases hs : status = "MAINT"
    · simp [memberAfterEnabled, hs]
    · simp [memberAfterEnabled, hs]
  have hw2 := is_weight_changed_ok p.weight st2 attrs2 _ hA2 hW2
  have hm2x := maint_ok st2 attrs2 _ hA2 hS2
  rw [hwc2] at hw2
  rw [hm2] at hm2x
  simp [enabled, hw2, hm2x]

def t6 : String → String := fun _ => "ok\n"

def p6 : Params := ⟨"enabled", "app", some "www", some "50%", false, false⟩

def attrs6a : List String := ["www", "app"] ++ List.replicate 15 "" ++ ["UP", "1"]

def attrs6b : List String := ["www", "app"] ++ List.replicate 15 "" ++ ["UP", "0"]

def st6 : St := ⟨some "www", some attrs6a, "", []⟩

def st6b : St := ⟨some "www", some attrs6b, "", []⟩

/-- Counterexample to C6 as stated: an active member with current weight "1"
(initial weight 1) and a live `enabled` request with weight "50%".  The first
run reports changed=true and issues `set weight ... 50%`; the member state it
produces (per the spec's own percentage semantics) reports weight "0"; the
second run against that state reports changed=true again, not changed=false. -/
theorem haproxy_C6_counterexample :
    (enabled p6 t6 st6).2 = Except.ok true ∧
    memberAfterEnabled p6 1 "UP" "1" = ("UP", "0") ∧
    (enabled p6 t6 st6b).2 = Except.ok true := by
  exact ⟨rfl, by decide, rfl⟩

def p6w : Params := ⟨"enabled", "app", some "www", some "10", false, false⟩

def attrs6w : List String := ["www", "app"] ++ List.replicate 15 "" ++ ["UP", "10"]

def st6w : St := ⟨some "www", some attrs6w, "", []⟩

/-- Witness for the amended C6: after a first run that set the absolute
weight "10" and enabled the member, the second run reports changed=false. -/
theorem haproxy_C6_witness :
    (enabled p6w t6 st6w).2 = Except.ok false :=
  haproxy_C6_amended p6w t6 st6w attrs6w "MAINT" "1" 1
    (by intro w hw; injection hw with h; subst h; decide) rfl rfl rfl

def dump7 : String := "# pxname,svname\nwww,app,,,,,,,,,,,,,,,,UP,1\n"

def t7 : String → String := fun c => if c = "show stat" then dump7 else "1 (initial 1)\n"

def p7 : Params := ⟨"enabled", "app", some "www", none, false, false⟩

def m7 : List String := ["www", "app"] ++ List.replicate 15 "" ++ ["UP", "1"]

/-- C7 as amended: for every live request whose member record is found, the
number of socket round trips (one per `execute` call, i.e. per
connect/send/receive/close cycle) is exactly two — on the mutating path (the
snapshot plus the composite command) and on the no-op path alike (the
snapshot plus the non-mutating "get weight" query).  The amendment is forced
by `haproxy_C7_counterexample`: the no-op path also performs two round
trips, not one as the claim states. -/
theorem haproxy_C7_amended (p : Params) (t : String → String) (m : List String)
    (status curw bk : String)
    (hstate : p.state = "enabled" ∨ p.state = "disabled")
    (hfind : get_host_stat_line p.host (parseStat (t "show stat")) = Except.ok (some m))
    (hbk : (match p.backend with | none => m[0]? | some b => some b) = some bk)
    (hS : m[17]? = some status)
    (hW : m[18]? = some curw)
    (hcm : p.check_mode = false) :
    (act p t).1.trace.length = 2 := by
  rcases hstate with he | hd
  · rw [act_enabled_eq p t m status curw bk he hfind hbk hS hW hcm]
    rfl
  · rw [act_disabled_eq p t m status bk hd hfind hbk hS hcm]
    cases hmm : (status == "MAINT") <;> simp [hmm]

/-- Witness for the amended C7 at a concrete no-op run. -/
theorem haproxy_C7_witness : (act p7 t7).1.trace.length = 2 :=
  haproxy_C7_amended p7 t7 m7 "UP" "1" "www" (Or.inl rfl) rfl rfl rfl rfl rfl

/-- Counterexample to C7 as stated: a no-op run (changed=false — active
member, `enabled`, no weight requested) performs two socket round trips (the
snapshot and the "get weight" query), not exactly one. -/
theorem haproxy_C7_counterexample :
    (act p7 t7).2 = Except.ok ⟨"1 (initial 1)", false⟩ ∧
    (act p7 t7).1.trace = ["show stat", "get weight www/app"] := by
  exact ⟨rfl, rfl⟩

def dump8 : String := "# pxname,svname\nwww,app,,,,,,,,,,,,,,,,UP,1\n"

def t8 : String → String := fun c => if c = "show stat" then dump8 else "ok\n"

def p8 : Params := ⟨"enabled", "app", some "www", some "banana", false, false⟩

def p8w : Params := ⟨"drained", "app", some "www", none, false, false⟩

def m8 : List String := ["www", "app"] ++ List.replicate 15 "" ++ ["UP", "1"]

/-- C8 as amended: an unrecognized desired-state value is a fatal usage
error and never a no-op — the front-end argument validation (spec-modelled
`validate_state`) rejects it, and if such a value reaches the engine the run
ends in `fail_json` after the statistics query (so the engine-level report
comes after one socket read, not before all socket activity).  A malformed
weight expression, by contrast, is not validated anywhere — the amendment
forced by `haproxy_C8_counterexample`, where the weight "banana" is forwarded
verbatim to the load balancer and the run succeeds. -/
theorem haproxy_C8_amended (p : Params) (t : String → String) (m : List String) (bk : String)
    (h1 : p.state ≠ "enabled") (h2 : p.state ≠ "disabled")
    (hfind : get_host_stat_line p.host (parseStat (t "show stat")) = Except.ok (some m))
    (hbk : (match p.backend with | none => m[0]? | some b => some b) = some bk) :
    validate_state p.state = false ∧
    (act p t).2 =
      Except.error (PyFailure.failJson ("unknown state specified: '" ++ p.state ++ "'")) ∧
    (act p t).1.trace = ["show stat"] := by
  have e1 : (p.state == "enabled") = false := beq_eq_false_iff_ne.mpr h1
  have e2 : (p.state == "disabled") = false := beq_eq_false_iff_ne.mpr h2
  refine ⟨?_, ?_, ?_⟩
  · simp [validate_state, ACTION_CHOICES, List.contains, List.elem, e1, e2]
  · rw [act_unknown_eq p t m bk h1 h2 hfind hbk]
  · rw [act_unknown_eq p t m bk h1 h2 hfind hbk]

/-- Witness for the amended C8 at the unrecognized state value "drained". -/
theorem haproxy_C8_witness :
    validate_state "drained" = false ∧
    (act p8w t8).2 = Except.error (PyFailure.failJson "unknown state specified: 'drained'") ∧
    (act p8w t8).1.trace = ["show stat"] := by
  have h := haproxy_C8_amended p8w t8 m8 "www" (by decide) (by decide) rfl rfl
  exact ⟨h.1, h.2.1, h.2.2⟩

/-- Counterexample to C8 as stated: the malformed weight expression "banana"
is not a fatal usage error — the run completes with exit_json and
changed=true, and the malformed value is sent to the socket inside the
`set weight` command. -/
theorem haproxy_C8_counterexample :
    (act p8 t8).2 = Except.ok ⟨"ok", true⟩ ∧
    (act p8 t8).1.trace = ["show stat", "get weight www/app; set weight www/app banana"] := by
  exact ⟨rfl, rfl⟩

/-- C9 as amended: each transport exchange acquires its own connection and
reaches `close()` exactly on normal completion; when `connect`, `sendall` or
`recv` raises, the exception propagates and the exchange exits with the
socket still open (the code has no try/finally).  The amendment is forced by
`haproxy_C9_counterexample`. -/
theorem haproxy_C9_amended (env : SockEnv) (cmd : String) :
    (∀ r, (executeSock env cmd).result = Except.ok r → (executeSock env cmd).closed = true) ∧
    (∀ e, (executeSock env cmd).result = Except.error e →
      (executeSock env cmd).closed = false) := by
  by_cases hc : env.connect_ok = false
  · simp [executeSock, hc]
  · by_cases hs : env.send_ok = false
    · simp [executeSock, hc, hs]
    · cases hr : recvAll env.recv_results "" <;> simp [executeSock, hc, hs, hr]

def envOK : SockEnv := ⟨true, true, [Except.ok "hi", Except.ok ""]⟩

def envFail : SockEnv := ⟨true, true, [Except.error ()]⟩

/-- Witness for the amended C9: a normal exchange closes its socket. -/
theorem haproxy_C9_witness :
    (executeSock envOK "show stat").result = Except.ok "hi" ∧
    (executeSock envOK "show stat").closed = true :=
  ⟨rfl, (haproxy_C9_amended envOK "show stat").1 "hi" rfl⟩

/-- Counterexample to C9 as stated: an exchange whose first `recv` raises an
I/O error exits with the socket not closed, so the connection is not closed
on every exit path. -/
theorem haproxy_C9_counterexample :
    (executeSock envFail "show stat").result = Except.error () ∧
    (executeSock envFail "show stat").closed = false := by
  exact ⟨rfl, rfl⟩

/-- Statistics dump in which host `app` appears in two pools, `www` first and
`api` second. -/
def dump10 : String :=
  "# pxname,svname\nwww,app,,,,,,,,,,,,,,,,UP,1\napi,app,,,,,,,,,,,,,,,,UP,1\n"

def t10 : String → String := fun c => if c = "show stat" then dump10 else "ok\n"

def p10 : Params := ⟨"enabled", "app", none, none, false, false⟩

def m10 : List String := ["www", "app"] ++ List.replicate 15 "" ++ ["UP", "1"]

/-- C10: the member lookup compares field index 1 of each comma-split record
against the target host and returns the first matching record
(`List.find?`); consequently, when the backend pool is not supplied, the
auto-detected pool name is that first record's field 0, and every issued
command targets only that single pool (the whole trace is the statistics
query plus one command built from that pool name). -/
theorem haproxy_C10 (p : Params) (t : String → String) (m : List String)
    (px status curw : String)
    (hlines : ∀ l ∈ parseStat (t "show stat"), 2 ≤ (splitChar ',' l).length)
    (hfind : ((parseStat (t "show stat")).map (fun l => splitChar ',' l)).find?
        (fun ps => ps[1]? == some p.host) = some m)
    (hb : p.backend = none)
    (hstate : p.state = "enabled")
    (hcm : p.check_mode = false)
    (hpx : m[0]? = some px)
    (hS : m[17]? = some status)
    (hW : m[18]? = some curw) :
    get_host_stat_line p.host (parseStat (t "show stat")) = Except.ok (some m) ∧
    (act p t).1.backend = some px ∧
    (act p t).1.trace = ["show stat",
      enabledCmdStr px p.host p.weight (weightChangeCore p.weight curw)
        (status == "MAINT")] := by
  have hgl : get_host_stat_line p.host (parseStat (t "show stat")) = Except.ok (some m) := by
    rw [get_host_stat_line_eq_find p.host _ hlines, hfind]
  have hbk : (match p.backend with | none => m[0]? | some b => some b) = some px := by
    rw [hb]
    exact hpx
  have ha := act_enabled_eq p t m status curw px hstate hgl hbk hS hW hcm
  refine ⟨hgl, ?_, ?_⟩ <;> rw [ha]

/-- Witness for C10 on a dump where `app` lives in pools `www` and `api`:
the first record (pool `www`) is chosen and the issued command targets
`www/app` only. -/
theorem haproxy_C10_witness :
    get_host_stat_line "app" (parseStat (t10 "show stat")) = Except.ok (some m10) ∧
    (act p10 t10).1.backend = some "www" ∧
    (act p10 t10).1.trace = ["show stat", "get weight www/app"] := by
  have h := haproxy_C10 p10 t10 m10 "www" "UP" "1" (by decide) (by decide) rfl rfl rfl rfl rfl rfl
  exact ⟨h.1, h.2.1, h.2.2⟩

end HAProxy
